import Mathlib

/-
Shallow embedding of the alumet-for-vm measurement API (src/alumet/generated/alumet-api.h).
The repository ships only the C declaration surface; the behavior of each operation is
modelled from spec.md, which was written for this interface.
-/

namespace Alumet

/-- Enum of the possible measurement types (WrappedMeasurementType). -/
inductive WrappedMeasurementType where
  | F64
  | U64
deriving DecidableEq, Repr

/-- Id of a custom unit (CustomUnitId, a uint32 wrapper). -/
structure CustomUnitId where
  val : Nat
deriving DecidableEq, Repr

/-- A unit of measurement (union Unit in the header: a tag plus, for the custom
variant, a CustomUnitId payload). -/
inductive Unit where
  | Unity
  | Second
  | Watt
  | Joule
  | Volt
  | Ampere
  | Hertz
  | DegreeCelsius
  | DegreeFahrenheit
  | WattHour
  | Custom (id : CustomUnitId)
deriving DecidableEq, Repr

/-- A metric id without generic type information (RawMetricId, a uintptr wrapper). -/
structure RawMetricId where
  val : Nat
deriving DecidableEq, Repr

/-- Timestamp: 64-bit seconds plus 32-bit nanosecond remainder. -/
structure Timestamp where
  secs : Nat
  nanos : Nat
deriving DecidableEq, Repr

/-- FfiResourceId: a fixed-width opaque blob of 56 bytes, each byte a Nat below 256. -/
structure FfiResourceId where
  bytes : List Nat
deriving DecidableEq, Repr

/-- FfiMeasurementValue: tagged union of U64 and F64 measured values. -/
inductive FfiMeasurementValue where
  | U64 (v : Nat)
  | F64 (v : Float)
deriving Repr

/-- Attribute values allowed on a measurement point: u64, f64, bool or string. -/
inductive AttrValue where
  | u64 (v : Nat)
  | f64 (v : Float)
  | bool (v : Bool)
  | str (v : String)
deriving Repr

/-- A value measured at a given point in time (MeasurementPoint): timestamp,
metric id, resource, value and an ordered attribute sequence. -/
structure MeasurementPoint where
  timestamp : Timestamp
  metric : RawMetricId
  resource : FfiResourceId
  value : FfiMeasurementValue
  attrs : List (String × AttrValue)
deriving Repr

/-- MeasurementBuffer: an ordered, growable collection of measurement points,
with full read and mutate access. -/
structure MeasurementBuffer where
  points : List MeasurementPoint
deriving Repr

/-- MeasurementAccumulator: the push-only capability view over the same storage
concept as MeasurementBuffer. -/
structure MeasurementAccumulator where
  points : List MeasurementPoint
deriving Repr

/-- mpoint_new_u64: constructs a fresh point with a U64 value and no attributes. -/
def mpoint_new_u64 (timestamp : Timestamp) (metric : RawMetricId)
    (resource : FfiResourceId) (value : Nat) : MeasurementPoint :=
  { timestamp := timestamp, metric := metric, resource := resource,
    value := FfiMeasurementValue.U64 value, attrs := [] }

/-- mpoint_new_f64: constructs a fresh point with an F64 value and no attributes. -/
def mpoint_new_f64 (timestamp : Timestamp) (metric : RawMetricId)
    (resource : FfiResourceId) (value : Float) : MeasurementPoint :=
  { timestamp := timestamp, metric := metric, resource := resource,
    value := FfiMeasurementValue.F64 value, attrs := [] }

/-- mpoint_attr_u64: appends one u64 attribute to the point. -/
def mpoint_attr_u64 (point : MeasurementPoint) (key : String) (value : Nat) :
    MeasurementPoint :=
  { point with attrs := point.attrs ++ [(key, AttrValue.u64 value)] }

/-- mpoint_attr_f64: appends one f64 attribute to the point. -/
def mpoint_attr_f64 (point : MeasurementPoint) (key : String) (value : Float) :
    MeasurementPoint :=
  { point with attrs := point.attrs ++ [(key, AttrValue.f64 value)] }

/-- mpoint_attr_bool: appends one bool attribute to the point. -/
def mpoint_attr_bool (point : MeasurementPoint) (key : String) (value : Bool) :
    MeasurementPoint :=
  { point with attrs := point.attrs ++ [(key, AttrValue.bool value)] }

/-- mpoint_attr_str: appends one string attribute to the point. -/
def mpoint_attr_str (point : MeasurementPoint) (key : String) (value : String) :
    MeasurementPoint :=
  { point with attrs := point.attrs ++ [(key, AttrValue.str value)] }

/-- mpoint_metric: accessor for the metric id of a point. -/
def mpoint_metric (point : MeasurementPoint) : RawMetricId :=
  point.metric

/-- mpoint_value: accessor for the tagged value of a point. -/
def mpoint_value (point : MeasurementPoint) : FfiMeasurementValue :=
  point.value

/-- mpoint_timestamp: accessor for the timestamp of a point. -/
def mpoint_timestamp (point : MeasurementPoint) : Timestamp :=
  point.timestamp

/-- mpoint_resource: accessor for the resource id of a point. -/
def mpoint_resource (point : MeasurementPoint) : FfiResourceId :=
  point.resource

/-- mbuffer_len: number of points stored in the buffer. -/
def mbuffer_len (buf : MeasurementBuffer) : Nat :=
  buf.points.length

/-- mbuffer_push: appends a point at the end of the buffer, consuming it. -/
def mbuffer_push (buf : MeasurementBuffer) (point : MeasurementPoint) :
    MeasurementBuffer :=
  { points := buf.points ++ [point] }

/-- maccumulator_push: appends a point at the end of the accumulator, consuming it. -/
def maccumulator_push (buf : MeasurementAccumulator) (point : MeasurementPoint) :
    MeasurementAccumulator :=
  { points := buf.points ++ [point] }

/-- mbuffer_foreach: invokes the callback once per point, in storage order,
threading the callback state (the void pointer of the C callback) left to right. -/
def mbuffer_foreach {σ : Type} (buf : MeasurementBuffer) (data : σ)
    (f : σ → MeasurementPoint → σ) : σ :=
  buf.points.foldl f data

/-- SourcePollFn: the poll verb of a source, with the opaque instance pointer
folded into the closure; it receives an accumulator and a timestamp and returns
the accumulator with the points it pushed. -/
abbrev SourcePollFn : Type := MeasurementAccumulator → Timestamp → MeasurementAccumulator

/-- TransformApplyFn: the apply verb of a transform; it edits the buffer in place. -/
abbrev TransformApplyFn : Type := MeasurementBuffer → MeasurementBuffer

/-- OutputWriteFn: the write verb of an output; the buffer is read-only, the
result models what the output recorded. -/
abbrev OutputWriteFn : Type := MeasurementBuffer → List MeasurementPoint

/-- One registered metric: name, description, value type and unit. -/
structure Metric where
  name : String
  description : String
  value_type : WrappedMeasurementType
  unit : Unit
deriving DecidableEq, Repr

/-- Registry-conflict error: the metric name is already registered with a
different value type or unit. -/
inductive RegistryConflict where
  | conflict (name : String)
deriving DecidableEq, Repr

/-- Modelled from the spec: the state behind an AlumetStart handle (the header
keeps it opaque). It holds the process-wide metric registry (metric ids are
list indices, issued monotonically), the custom-unit registry keyed by name,
and the registration lists of the three extension roles, in registration
order. -/
structure AlumetStart where
  metrics : List Metric
  custom_units : List String
  sources : List SourcePollFn
  transforms : List TransformApplyFn
  outputs : List OutputWriteFn

/-- Modelled from the spec: the registry walk behind alumet_create_metric (the
header only declares it). It scans the registered metrics in issue order
carrying the index reached so far: on a name hit with identical type and unit
it returns the existing index and leaves the registry unchanged (idempotent
re-registration); on a name hit with a different type or unit it reports a
registry conflict and leaves the registry unchanged; if the name is absent it
appends the new metric and returns its fresh index. -/
def register_metric (metrics : List Metric) (idx : Nat) (m : Metric) :
    Except RegistryConflict Nat × List Metric :=
  match metrics with
  | [] => (Except.ok idx, [m])
  | m0 :: rest =>
    if m0.name = m.name then
      if m0.value_type = m.value_type ∧ m0.unit = m.unit then
        (Except.ok idx, m0 :: rest)
      else
        (Except.error (RegistryConflict.conflict m.name), m0 :: rest)
    else
      let r := register_metric rest (idx + 1) m
      (r.1, m0 :: r.2)

/-- alumet_create_metric: registers a metric on the startup handle and returns
either its id or a registry-conflict error, together with the updated handle
state. Modelled from the spec via register_metric. -/
def alumet_create_metric (alumet : AlumetStart) (name : String)
    (value_type : WrappedMeasurementType) (unit : Unit) (description : String) :
    Except RegistryConflict RawMetricId × AlumetStart :=
  ((register_metric alumet.metrics 0
      { name := name, description := description,
        value_type := value_type, unit := unit }).1.map (fun i => { val := i }),
   { alumet with
      metrics := (register_metric alumet.metrics 0
        { name := name, description := description,
          value_type := value_type, unit := unit }).2 })

/-- Modelled from the spec: lookup of the first registered metric with the
given name (names are unique in the registry, so first is the only one). -/
def lookup_metric (metrics : List Metric) (name : String) : Option Metric :=
  match metrics with
  | [] => none
  | m0 :: rest => if m0.name = name then some m0 else lookup_metric rest name

/-- metric_name: returns the name recorded for a metric id. The header takes
the ambient registry; here the AlumetStart state carrying the registry is
passed explicitly. Lookup of a nonexistent id is a precondition violation,
rendered as none. -/
def metric_name (alumet : AlumetStart) (metric : RawMetricId) : Option String :=
  (alumet.metrics.get? metric.val).map Metric.name

/-- astr: borrowed view of a null-terminated C string. C strings and views are
both modelled as the Lean string of the bytes before the terminator, so the
conversion is the identity on the modelled contents. -/
def astr (chars : String) : String :=
  chars

/-- Modelled from the spec: the registry walk behind alumet_create_metric_c,
which receives null-terminated C strings instead of AStr views; it performs
the same scan as register_metric, comparing against the view of the C string
name and storing views of the C strings. -/
def register_metric_c (metrics : List Metric) (idx : Nat) (name : String)
    (value_type : WrappedMeasurementType) (unit : Unit) (description : String) :
    Except RegistryConflict Nat × List Metric :=
  match metrics with
  | [] =>
    (Except.ok idx,
     [{ name := astr name, description := astr description,
        value_type := value_type, unit := unit }])
  | m0 :: rest =>
    if m0.name = astr name then
      if m0.value_type = value_type ∧ m0.unit = unit then
        (Except.ok idx, m0 :: rest)
      else
        (Except.error (RegistryConflict.conflict (astr name)), m0 :: rest)
    else
      let r := register_metric_c rest (idx + 1) name value_type unit description
      (r.1, m0 :: r.2)

/-- alumet_create_metric_c: the C-string registration entry point, modelled
from the spec via register_metric_c. -/
def alumet_create_metric_c (alumet : AlumetStart) (name : String)
    (value_type : WrappedMeasurementType) (unit : Unit) (description : String) :
    Except RegistryConflict RawMetricId × AlumetStart :=
  ((register_metric_c alumet.metrics 0 name value_type unit description).1.map
      (fun i => { val := i }),
   { alumet with
      metrics := (register_metric_c alumet.metrics 0 name value_type unit description).2 })

/-- Modelled from the spec: the custom-unit registry walk behind create_unit
(the header only declares CustomUnitId and its doc comment names the
operation). Requesting a name already present returns its existing index;
a new name is appended and receives the next fresh index. -/
def register_unit (units : List String) (idx : Nat) (name : String) :
    Nat × List String :=
  match units with
  | [] => (idx, [name])
  | u0 :: rest =>
    if u0 = name then
      (idx, u0 :: rest)
    else
      let r := register_unit rest (idx + 1) name
      (r.1, u0 :: r.2)

/-- create_unit: issues a CustomUnitId for a caller-supplied unit name on the
startup handle. Modelled from the spec via register_unit. -/
def create_unit (alumet : AlumetStart) (name : String) :
    CustomUnitId × AlumetStart :=
  ({ val := (register_unit alumet.custom_units 0 name).1 },
   { alumet with custom_units := (register_unit alumet.custom_units 0 name).2 })

/-- alumet_add_source: appends a source at the end of the registration list. -/
def alumet_add_source (alumet : AlumetStart) (source : SourcePollFn) : AlumetStart :=
  { alumet with sources := alumet.sources ++ [source] }

/-- alumet_add_transform: appends a transform at the end of the registration list. -/
def alumet_add_transform (alumet : AlumetStart) (transform : TransformApplyFn) :
    AlumetStart :=
  { alumet with transforms := alumet.transforms ++ [transform] }

/-- alumet_add_output: appends an output at the end of the registration list. -/
def alumet_add_output (alumet : AlumetStart) (output : OutputWriteFn) : AlumetStart :=
  { alumet with outputs := alumet.outputs ++ [output] }

/-- Modelled from the spec: the transform stage of one collection tick applies
the registered transforms to the buffer in registration order. -/
def run_transforms (transforms : List TransformApplyFn) (buf : MeasurementBuffer) :
    MeasurementBuffer :=
  transforms.foldl (fun b t => t b) buf

/-- Config tree node: polymorphic over table, array, string, integer, float and
boolean, per the data model of the spec. -/
inductive ConfigValue where
  | table (entries : List (String × ConfigValue))
  | array (items : List ConfigValue)
  | string (v : String)
  | int (v : Int)
  | float (v : Float)
  | bool (v : Bool)
deriving Repr

/-- ConfigTable: an ordered mapping from string keys to config nodes. -/
structure ConfigTable where
  entries : List (String × ConfigValue)
deriving Repr

/-- ConfigArray: an ordered sequence of config nodes. -/
structure ConfigArray where
  items : List ConfigValue
deriving Repr

/-- Modelled from the spec: key-addressed lookup in a config table (the first
entry with the given key, if any). -/
def config_lookup (table : ConfigTable) (key : String) : Option ConfigValue :=
  (table.entries.find? (fun e => e.1 == key)).map Prod.snd

/-- Modelled from the spec: index-addressed lookup in a config array. -/
def config_at (array : ConfigArray) (index : Nat) : Option ConfigValue :=
  array.items.get? index

/-- config_string_in: key-addressed string getter; absent on a missing key or a
node of another type. -/
def config_string_in (table : ConfigTable) (key : String) : Option String :=
  match config_lookup table key with
  | some (ConfigValue.string v) => some v
  | _ => none

/-- config_cstring_in: key-addressed C-string getter; absent on a missing key or
a node of another type. -/
def config_cstring_in (table : ConfigTable) (key : String) : Option String :=
  match config_lookup table key with
  | some (ConfigValue.string v) => some v
  | _ => none

/-- config_int_in: key-addressed integer getter; absent on a missing key or a
node of another type. -/
def config_int_in (table : ConfigTable) (key : String) : Option Int :=
  match config_lookup table key with
  | some (ConfigValue.int v) => some v
  | _ => none

/-- config_bool_in: key-addressed boolean getter; absent on a missing key or a
node of another type. -/
def config_bool_in (table : ConfigTable) (key : String) : Option Bool :=
  match config_lookup table key with
  | some (ConfigValue.bool v) => some v
  | _ => none

/-- config_float_in: key-addressed float getter; absent on a missing key or a
node of another type. -/
def config_float_in (table : ConfigTable) (key : String) : Option Float :=
  match config_lookup table key with
  | some (ConfigValue.float v) => some v
  | _ => none

/-- config_array_in: key-addressed nested-array getter; absent on a missing key
or a node of another type. -/
def config_array_in (table : ConfigTable) (key : String) : Option ConfigArray :=
  match config_lookup table key with
  | some (ConfigValue.array items) => some { items := items }
  | _ => none

/-- config_table_in: key-addressed nested-table getter; absent on a missing key
or a node of another type. -/
def config_table_in (table : ConfigTable) (key : String) : Option ConfigTable :=
  match config_lookup table key with
  | some (ConfigValue.table entries) => some { entries := entries }
  | _ => none

/-- config_string_at: index-addressed string getter; absent on a missing index
or a node of another type. -/
def config_string_at (array : ConfigArray) (index : Nat) : Option String :=
  match config_at array index with
  | some (ConfigValue.string v) => some v
  | _ => none

/-- config_cstring_at: index-addressed C-string getter; absent on a missing
index or a node of another type. -/
def config_cstring_at (array : ConfigArray) (index : Nat) : Option String :=
  match config_at array index with
  | some (ConfigValue.string v) => some v
  | _ => none

/-- config_int_at: index-addressed integer getter; absent on a missing index or
a node of another type. -/
def config_int_at (array : ConfigArray) (index : Nat) : Option Int :=
  match config_at array index with
  | some (ConfigValue.int v) => some v
  | _ => none

/-- config_bool_at: index-addressed boolean getter; absent on a missing index
or a node of another type. -/
def config_bool_at (array : ConfigArray) (index : Nat) : Option Bool :=
  match config_at array index with
  | some (ConfigValue.bool v) => some v
  | _ => none

/-- config_float_at: index-addressed float getter; absent on a missing index or
a node of another type. -/
def config_float_at (array : ConfigArray) (index : Nat) : Option Float :=
  match config_at array index with
  | some (ConfigValue.float v) => some v
  | _ => none

/-- config_array_at: index-addressed nested-array getter; absent on a missing
index or a node of another type. -/
def config_array_at (array : ConfigArray) (index : Nat) : Option ConfigArray :=
  match config_at array index with
  | some (ConfigValue.array items) => some { items := items }
  | _ => none

/-- config_table_at: index-addressed nested-table getter; absent on a missing
index or a node of another type. -/
def config_table_at (array : ConfigArray) (index : Nat) : Option ConfigTable :=
  match config_at array index with
  | some (ConfigValue.table entries) => some { entries := entries }
  | _ => none

/-- resource_new_local_machine: the whole-machine resource identity. Modelled
from the spec encoding note: discriminant byte 0, zero payload, 56 bytes total. -/
def resource_new_local_machine : FfiResourceId :=
  { bytes := 0 :: List.replicate 55 0 }

/-- resource_new_cpu_package: the CPU-package-by-index resource identity.
Modelled from the spec encoding note: discriminant byte 1, then the uint32
package index in little-endian bytes, zero-padded to 56 bytes total. -/
def resource_new_cpu_package (pkg_id : Nat) : FfiResourceId :=
  { bytes := 1 :: pkg_id % 256 :: pkg_id / 256 % 256 :: pkg_id / 65536 % 256 ::
      pkg_id / 16777216 % 256 :: List.replicate 51 0 }

/-- Pushes a whole sequence of points into a buffer, in sequence order. -/
def mbuffer_push_all (buf : MeasurementBuffer) (pts : List MeasurementPoint) :
    MeasurementBuffer :=
  pts.foldl mbuffer_push buf

/-- Pushes a whole sequence of points into an accumulator, in sequence order. -/
def maccumulator_push_all (buf : MeasurementAccumulator) (pts : List MeasurementPoint) :
    MeasurementAccumulator :=
  pts.foldl maccumulator_push buf

/-- A transform that appends a fixed boolean marker attribute to every point of
the buffer. -/
def marker_transform (marker : String) : TransformApplyFn :=
  fun buf => { points := buf.points.map (fun p => mpoint_attr_bool p marker true) }

end Alumet

namespace Alumet

lemma mbuffer_push_all_points (buf : MeasurementBuffer) (pts : List MeasurementPoint) :
    (mbuffer_push_all buf pts).points = buf.points ++ pts := by
  induction pts generalizing buf with
  | nil => simp [mbuffer_push_all]
  | cons p ps ih =>
    show (mbuffer_push_all (mbuffer_push buf p) ps).points = _
    rw [ih]
    simp [mbuffer_push]

lemma maccumulator_push_all_points (buf : MeasurementAccumulator)
    (pts : List MeasurementPoint) :
    (maccumulator_push_all buf pts).points = buf.points ++ pts := by
  induction pts generalizing buf with
  | nil => simp [maccumulator_push_all]
  | cons p ps ih =>
    show (maccumulator_push_all (maccumulator_push buf p) ps).points = _
    rw [ih]
    simp [maccumulator_push]

lemma foldl_snoc_collect (l acc : List MeasurementPoint) :
    l.foldl (fun visited p => visited ++ [p]) acc = acc ++ l := by
  induction l generalizing acc with
  | nil => simp
  | cons p ps ih => simp [List.foldl_cons, ih]

/-- C4: pushing N points into a fresh container gives length N, and
mbuffer_foreach visits the points exactly once each, in push order, with no
deduplication or reordering; the same holds for points pushed through
maccumulator_push. -/
theorem container_push_len_foreach_order (pts : List MeasurementPoint) :
    mbuffer_len (mbuffer_push_all { points := [] } pts) = pts.length ∧
    mbuffer_foreach (mbuffer_push_all { points := [] } pts) []
      (fun visited p => visited ++ [p]) = pts ∧
    (maccumulator_push_all { points := [] } pts).points = pts := by
  refine ⟨?_, ?_, ?_⟩
  · simp [mbuffer_len, mbuffer_push_all_points]
  · simp [mbuffer_foreach, mbuffer_push_all_points, foldl_snoc_collect]
  · simp [maccumulator_push_all_points]

/-- C5: a point built by mpoint_new_u64 and pushed into a buffer is the last
point of the buffer, and the accessors report exactly the metric id, resource,
timestamp and U64-tagged value given at construction. -/
theorem mpoint_u64_roundtrip (buf : MeasurementBuffer) (ts : Timestamp)
    (m : RawMetricId) (r : FfiResourceId) (v : Nat) :
    (mbuffer_push buf (mpoint_new_u64 ts m r v)).points.getLast?
      = some (mpoint_new_u64 ts m r v) ∧
    mpoint_metric (mpoint_new_u64 ts m r v) = m ∧
    mpoint_resource (mpoint_new_u64 ts m r v) = r ∧
    mpoint_timestamp (mpoint_new_u64 ts m r v) = ts ∧
    mpoint_value (mpoint_new_u64 ts m r v) = FfiMeasurementValue.U64 v := by
  refine ⟨?_, rfl, rfl, rfl, rfl⟩
  simp [mbuffer_push]

/-- C10: resource constructors produce distinct 56-byte identities: distinct
package indices give distinct encodings, and every package encoding differs
from the local-machine encoding. -/
theorem resource_identity (m n : Nat) (hm : m < 4294967296) (hn : n < 4294967296)
    (hmn : m ≠ n) :
    resource_new_cpu_package m ≠ resource_new_cpu_package n ∧
    resource_new_cpu_package m ≠ resource_new_local_machine ∧
    (resource_new_cpu_package m).bytes.length = 56 ∧
    resource_new_local_machine.bytes.length = 56 := by
  refine ⟨?_, ?_, ?_, ?_⟩
  · intro h
    simp only [resource_new_cpu_package, FfiResourceId.mk.injEq, List.cons.injEq] at h
    omega
  · intro h
    simp only [resource_new_cpu_package, resource_new_local_machine,
      FfiResourceId.mk.injEq, List.cons.injEq] at h
    exact absurd h.1 (by decide)
  · simp [resource_new_cpu_package]
  · simp [resource_new_local_machine]

/-- Witness for C10 at package indices 0 and 1. -/
theorem resource_identity_witness :
    (0 : Nat) < 4294967296 ∧ (1 : Nat) < 4294967296 ∧ (0 : Nat) ≠ 1 ∧
    (resource_new_cpu_package 0 ≠ resource_new_cpu_package 1 ∧
     resource_new_cpu_package 0 ≠ resource_new_local_machine ∧
     (resource_new_cpu_package 0).bytes.length = 56 ∧
     resource_new_local_machine.bytes.length = 56) :=
  ⟨by decide, by decide, by decide,
   resource_identity 0 1 (by decide) (by decide) (by decide)⟩

/-- C7: transforms registered A then B run in that order within a tick: the
tick applies B to the result of A; and with both transforms appending a fixed
marker attribute, every point of the resulting buffer carries the A marker at
an attribute position strictly before the B marker. -/
theorem transform_registration_order (alumet : AlumetStart)
    (hempty : alumet.transforms = []) (A B : TransformApplyFn)
    (buf : MeasurementBuffer) (a b : String) :
    run_transforms (alumet_add_transform (alumet_add_transform alumet A) B).transforms buf
      = B (A buf) ∧
    ∀ p, p ∈ (run_transforms
        (alumet_add_transform (alumet_add_transform alumet (marker_transform a))
          (marker_transform b)).transforms buf).points →
      ∃ i j, i < j ∧ p.attrs.get? i = some (a, AttrValue.bool true) ∧
        p.attrs.get? j = some (b, AttrValue.bool true) := by
  constructor
  · simp [run_transforms, alumet_add_transform, hempty]
  · intro p hp
    simp only [run_transforms, alumet_add_transform, hempty, List.nil_append,
      List.singleton_append, List.foldl_cons, List.foldl_nil] at hp
    simp only [marker_transform, mpoint_attr_bool, List.mem_map] at hp
    obtain ⟨p1, ⟨q, hq, hq1⟩, hp1⟩ := hp
    refine ⟨q.attrs.length, q.attrs.length + 1, Nat.lt_succ_self _, ?_, ?_⟩
    · subst hp1
      subst hq1
      simp only [mpoint_attr_bool, List.append_assoc, List.singleton_append,
        List.get?_eq_getElem?]
      rw [List.getElem?_append_right (Nat.le_refl _)]
      simp
    · subst hp1
      subst hq1
      simp only [mpoint_attr_bool, List.append_assoc, List.singleton_append,
        List.get?_eq_getElem?]
      rw [List.getElem?_append_right (by omega)]
      simp

/-- Witness for C7: a startup handle with no transforms, the two marker
transforms, and a one-point buffer. -/
theorem transform_registration_order_witness :
    ({ metrics := [], custom_units := [], sources := [], transforms := [],
       outputs := [] } : AlumetStart).transforms = [] ∧
    (run_transforms (alumet_add_transform (alumet_add_transform
        { metrics := [], custom_units := [], sources := [], transforms := [],
          outputs := [] } (marker_transform "ma")) (marker_transform "mb")).transforms
        { points := [mpoint_new_u64 { secs := 1, nanos := 2 } { val := 0 }
            resource_new_local_machine 42] }
      = marker_transform "mb" (marker_transform "ma"
          { points := [mpoint_new_u64 { secs := 1, nanos := 2 } { val := 0 }
              resource_new_local_machine 42] }) ∧
     ∀ p, p ∈ (run_transforms (alumet_add_transform (alumet_add_transform
          { metrics := [], custom_units := [], sources := [], transforms := [],
            outputs := [] } (marker_transform "ma")) (marker_transform "mb")).transforms
          { points := [mpoint_new_u64 { secs := 1, nanos := 2 } { val := 0 }
              resource_new_local_machine 42] }).points →
       ∃ i j, i < j ∧ p.attrs.get? i = some ("ma", AttrValue.bool true) ∧
         p.attrs.get? j = some ("mb", AttrValue.bool true)) :=
  ⟨rfl, transform_registration_order
    { metrics := [], custom_units := [], sources := [], transforms := [],
      outputs := [] } rfl (marker_transform "ma") (marker_transform "mb")
    { points := [mpoint_new_u64 { secs := 1, nanos := 2 } { val := 0 }
        resource_new_local_machine 42] } "ma" "mb"⟩

lemma register_metric_conflict_lemma (m m0 : Metric)
    (hdiff : m0.value_type ≠ m.value_type ∨ m0.unit ≠ m.unit) :
    ∀ (ms : List Metric) (k : Nat), lookup_metric ms m.name = some m0 →
      register_metric ms k m
        = (Except.error (RegistryConflict.conflict m.name), ms) := by
  intro ms
  induction ms with
  | nil =>
    intro k hfound
    simp [lookup_metric] at hfound
  | cons a rest ih =>
    intro k hfound
    by_cases h : a.name = m.name
    · have ha : a = m0 := by simpa [lookup_metric, h] using hfound
      subst ha
      have hcond : ¬ (a.value_type = m.value_type ∧ a.unit = m.unit) := by
        rcases hdiff with hd | hd
        · exact fun hc => hd hc.1
        · exact fun hc => hd hc.2
      simp [register_metric, h, hcond]
    · have hrest : lookup_metric rest m.name = some m0 := by
        simpa [lookup_metric, h] using hfound
      simp [register_metric, h, ih (k + 1) hrest]

lemma register_metric_idem_lemma (m : Metric) :
    ∀ (ms : List Metric) (k i : Nat) (ms2 : List Metric),
      register_metric ms k m = (Except.ok i, ms2) →
      register_metric ms2 k m = (Except.ok i, ms2) := by
  intro ms
  induction ms with
  | nil =>
    intro k i ms2 h
    simp only [register_metric, Prod.mk.injEq, Except.ok.injEq] at h
    obtain ⟨hi, hms⟩ := h
    subst hi
    subst hms
    simp [register_metric]
  | cons a rest ih =>
    intro k i ms2 h
    by_cases hname : a.name = m.name
    · by_cases hcond : a.value_type = m.value_type ∧ a.unit = m.unit
      · simp only [register_metric, if_pos hname, if_pos hcond, Prod.mk.injEq,
          Except.ok.injEq] at h
        obtain ⟨hi, hms⟩ := h
        subst hi
        subst hms
        simp [register_metric, hname, hcond]
      · simp [register_metric, hname, hcond] at h
    · simp only [register_metric, if_neg hname, Prod.mk.injEq] at h
      obtain ⟨h1, h2⟩ := h
      subst h2
      have hrec := ih (k + 1) i (register_metric rest (k + 1) m).2 (Prod.ext h1 rfl)
      simp [register_metric, hname, hrec]

lemma register_metric_ok_get (m : Metric) :
    ∀ (ms : List Metric) (k i : Nat) (ms2 : List Metric),
      register_metric ms k m = (Except.ok i, ms2) →
      k ≤ i ∧ ∃ m2, ms2.get? (i - k) = some m2 ∧ m2.name = m.name := by
  intro ms
  induction ms with
  | nil =>
    intro k i ms2 h
    simp only [register_metric, Prod.mk.injEq, Except.ok.injEq] at h
    obtain ⟨hi, hms⟩ := h
    subst hi
    subst hms
    exact ⟨Nat.le_refl _, m, by simp, rfl⟩
  | cons a rest ih =>
    intro k i ms2 h
    by_cases hname : a.name = m.name
    · by_cases hcond : a.value_type = m.value_type ∧ a.unit = m.unit
      · simp only [register_metric, if_pos hname, if_pos hcond, Prod.mk.injEq,
          Except.ok.injEq] at h
        obtain ⟨hi, hms⟩ := h
        subst hi
        subst hms
        exact ⟨Nat.le_refl _, a, by simp, hname⟩
      · simp [register_metric, hname, hcond] at h
    · simp only [register_metric, if_neg hname, Prod.mk.injEq] at h
      obtain ⟨h1, h2⟩ := h
      subst h2
      obtain ⟨hk, m2, hget, hname2⟩ := ih (k + 1) i _ (Prod.ext h1 rfl)
      refine ⟨by omega, m2, ?_, hname2⟩
      have hik : i - k = (i - (k + 1)) + 1 := by omega
      rw [hik]
      simpa using hget

lemma alumet_create_metric_ok (alumet : AlumetStart) (name description : String)
    (value_type : WrappedMeasurementType) (unit : Unit) (id : RawMetricId)
    (alumet1 : AlumetStart)
    (h : alumet_create_metric alumet name value_type unit description
      = (Except.ok id, alumet1)) :
    register_metric alumet.metrics 0
      { name := name, description := description, value_type := value_type,
        unit := unit } = (Except.ok id.val, alumet1.metrics) ∧
    alumet1 = { alumet with metrics := alumet1.metrics } := by
  simp only [alumet_create_metric, Prod.mk.injEq] at h
  obtain ⟨h1, h2⟩ := h
  have h3 : (register_metric alumet.metrics 0
      { name := name, description := description, value_type := value_type,
        unit := unit }).2 = alumet1.metrics := by
    rw [← h2]
  rcases hro : (register_metric alumet.metrics 0
      { name := name, description := description, value_type := value_type,
        unit := unit }).1 with e | i
  · rw [hro] at h1
    simp [Except.map] at h1
  · rw [hro] at h1
    simp only [Except.map, Except.ok.injEq] at h1
    refine ⟨?_, ?_⟩
    · rw [← h3]
      exact Prod.ext (hro.trans (by rw [← h1])) rfl
    · rw [← h3]
      exact h2.symm

/-- C1: registering a name that is already registered with a different value
type or unit fails with a registry-conflict error, returns no usable id, leaves
the startup state unchanged, and in particular leaves the recorded metric for
that name, with its value type and unit, unchanged. -/
theorem create_metric_conflict (alumet : AlumetStart) (name description : String)
    (value_type : WrappedMeasurementType) (unit : Unit) (m0 : Metric)
    (hfound : lookup_metric alumet.metrics name = some m0)
    (hdiff : m0.value_type ≠ value_type ∨ m0.unit ≠ unit) :
    alumet_create_metric alumet name value_type unit description
      = (Except.error (RegistryConflict.conflict name), alumet) ∧
    lookup_metric
      (alumet_create_metric alumet name value_type unit description).2.metrics name
      = some m0 := by
  have hreg := register_metric_conflict_lemma
    { name := name, description := description, value_type := value_type,
      unit := unit } m0 hdiff alumet.metrics 0 hfound
  constructor
  · simp [alumet_create_metric, hreg, Except.map]
  · simp [alumet_create_metric, hreg, hfound]

/-- The metric recorded for the name x, U64 in Watt, used by witnesses. -/
def xMetric : Metric :=
  { name := "x", description := "", value_type := WrappedMeasurementType.U64,
    unit := Unit.Watt }

/-- A startup state whose registry already holds xMetric. -/
def startM : AlumetStart :=
  { metrics := [xMetric], custom_units := [], sources := [], transforms := [],
    outputs := [] }

/-- Witness for C1: re-registering x with value type F64 conflicts with the
recorded U64 and changes nothing. -/
theorem create_metric_conflict_witness :
    lookup_metric startM.metrics "x" = some xMetric ∧
    (xMetric.value_type ≠ WrappedMeasurementType.F64 ∨ xMetric.unit ≠ Unit.Watt) ∧
    (alumet_create_metric startM "x" WrappedMeasurementType.F64 Unit.Watt ""
       = (Except.error (RegistryConflict.conflict "x"), startM) ∧
     lookup_metric (alumet_create_metric startM "x" WrappedMeasurementType.F64
       Unit.Watt "").2.metrics "x" = some xMetric) :=
  ⟨rfl, Or.inl (by decide),
   create_metric_conflict startM "x" "" WrappedMeasurementType.F64 Unit.Watt
     xMetric rfl (Or.inl (by decide))⟩

/-- C2: when create_metric succeeds, repeating the call with identical
arguments succeeds again, returns the same metric id, and leaves the startup
state unchanged. -/
theorem create_metric_idempotent (alumet : AlumetStart) (name description : String)
    (value_type : WrappedMeasurementType) (unit : Unit) (id : RawMetricId)
    (alumet1 : AlumetStart)
    (h : alumet_create_metric alumet name value_type unit description
      = (Except.ok id, alumet1)) :
    alumet_create_metric alumet1 name value_type unit description
      = (Except.ok id, alumet1) := by
  obtain ⟨hreg, -⟩ := alumet_create_metric_ok alumet name description value_type
    unit id alumet1 h
  have hidem := register_metric_idem_lemma
    { name := name, description := description, value_type := value_type,
      unit := unit } alumet.metrics 0 id.val alumet1.metrics hreg
  simp only [alumet_create_metric]
  rw [hidem]
  simp [Except.map]

/-- The startup state with an empty registry, used by witnesses. -/
def start0 : AlumetStart :=
  { metrics := [], custom_units := [], sources := [], transforms := [],
    outputs := [] }

/-- Witness for C2: registering x on an empty registry and repeating the call. -/
theorem create_metric_idempotent_witness :
    alumet_create_metric start0 "x" WrappedMeasurementType.U64 Unit.Watt ""
      = (Except.ok { val := 0 }, startM) ∧
    alumet_create_metric startM "x" WrappedMeasurementType.U64 Unit.Watt ""
      = (Except.ok { val := 0 }, startM) :=
  ⟨rfl, create_metric_idempotent start0 "x" "" WrappedMeasurementType.U64
    Unit.Watt { val := 0 } startM rfl⟩

/-- C3: after a successful create_metric returning id m, metric_name on m
returns exactly the registered name. -/
theorem create_metric_name_roundtrip (alumet : AlumetStart)
    (name description : String) (value_type : WrappedMeasurementType)
    (unit : Unit) (id : RawMetricId) (alumet1 : AlumetStart)
    (h : alumet_create_metric alumet name value_type unit description
      = (Except.ok id, alumet1)) :
    metric_name alumet1 id = some name := by
  obtain ⟨hreg, -⟩ := alumet_create_metric_ok alumet name description value_type
    unit id alumet1 h
  obtain ⟨-, m2, hget, hname⟩ := register_metric_ok_get
    { name := name, description := description, value_type := value_type,
      unit := unit } alumet.metrics 0 id.val alumet1.metrics hreg
  simp only [Nat.sub_zero] at hget
  simp only [metric_name]
  rw [hget]
  simp at hname
  simp [hname]

/-- Witness for C3: the name x registered on the empty registry is returned by
metric_name for the issued id. -/
theorem create_metric_name_roundtrip_witness :
    alumet_create_metric start0 "x" WrappedMeasurementType.U64 Unit.Watt ""
      = (Except.ok { val := 0 }, startM) ∧
    metric_name startM { val := 0 } = some "x" :=
  ⟨rfl, create_metric_name_roundtrip start0 "x" "" WrappedMeasurementType.U64
    Unit.Watt { val := 0 } startM rfl⟩

lemma register_metric_c_eq (name description : String)
    (value_type : WrappedMeasurementType) (unit : Unit) :
    ∀ (ms : List Metric) (k : Nat),
      register_metric_c ms k name value_type unit description
        = register_metric ms k
            { name := astr name, description := astr description,
              value_type := value_type, unit := unit } := by
  intro ms
  induction ms with
  | nil =>
    intro k
    rfl
  | cons a rest ih =>
    intro k
    simp only [register_metric_c, register_metric, ih]

/-- C9: the C-string registration entry point returns the same result and the
same registry state as alumet_create_metric applied to the borrowed views of
the same C strings. -/
theorem create_metric_c_equiv (alumet : AlumetStart) (name description : String)
    (value_type : WrappedMeasurementType) (unit : Unit) :
    alumet_create_metric_c alumet name value_type unit description
      = alumet_create_metric alumet (astr name) value_type unit (astr description) := by
  simp only [alumet_create_metric_c, alumet_create_metric, register_metric_c_eq]

lemma register_unit_idem_lemma (name : String) :
    ∀ (us : List String) (k : Nat),
      register_unit (register_unit us k name).2 k name = register_unit us k name := by
  intro us
  induction us with
  | nil =>
    intro k
    simp [register_unit]
  | cons u rest ih =>
    intro k
    by_cases h : u = name
    · simp [register_unit, h]
    · simp [register_unit, h, ih (k + 1)]

lemma register_unit_fresh_lemma (name : String) :
    ∀ (us : List String) (k : Nat), ¬ name ∈ us →
      (register_unit us k name).1 = k + us.length := by
  intro us
  induction us with
  | nil =>
    intro k _
    simp [register_unit]
  | cons u rest ih =>
    intro k h
    simp only [List.mem_cons, not_or] at h
    have hu : ¬ u = name := fun hh => h.1 hh.symm
    have := ih (k + 1) h.2
    simp only [register_unit, if_neg hu, this, List.length_cons]
    omega

lemma register_unit_mem_lt (name : String) :
    ∀ (us : List String) (k : Nat), name ∈ us →
      (register_unit us k name).1 < k + us.length := by
  intro us
  induction us with
  | nil =>
    intro k h
    simp at h
  | cons u rest ih =>
    intro k h
    by_cases hu : u = name
    · simp only [register_unit, if_pos hu, List.length_cons]
      omega
    · have hrest : name ∈ rest := by
        rcases List.mem_cons.mp h with h1 | h1
        · exact absurd h1.symm hu
        · exact h1
      have := ih (k + 1) hrest
      simp only [register_unit, if_neg hu, List.length_cons]
      omega

/-- C8: requesting a custom unit id for the same name twice returns the same
id and leaves the registry unchanged; a name not requested before receives an
id distinct from the id of every name already in the registry. -/
theorem create_unit_idempotent_fresh (alumet : AlumetStart) (name : String) :
    create_unit (create_unit alumet name).2 name = create_unit alumet name ∧
    (¬ name ∈ alumet.custom_units →
      ∀ prior, prior ∈ alumet.custom_units →
        (create_unit alumet prior).1 ≠ (create_unit alumet name).1) := by
  constructor
  · simp only [create_unit]
    rw [register_unit_idem_lemma]
  · intro hnew prior hmem heq
    simp only [create_unit, CustomUnitId.mk.injEq] at heq
    have h1 := register_unit_mem_lt prior alumet.custom_units 0 hmem
    have h2 := register_unit_fresh_lemma name alumet.custom_units 0 hnew
    omega

/-- A startup state whose custom-unit registry already holds the name u1. -/
def startU : AlumetStart :=
  { metrics := [], custom_units := ["u1"], sources := [], transforms := [],
    outputs := [] }

/-- Witness for C8: re-requesting u2 is stable and the fresh u2 id differs from
the previously issued u1 id. -/
theorem create_unit_idempotent_fresh_witness :
    create_unit (create_unit startU "u2").2 "u2" = create_unit startU "u2" ∧
    (create_unit startU "u1").1 ≠ (create_unit startU "u2").1 :=
  ⟨(create_unit_idempotent_fresh startU "u2").1,
   (create_unit_idempotent_fresh startU "u2").2 (by decide) "u1" (by decide)⟩

/-- C6: every typed config getter, key-addressed or index-addressed, returns
absent when the addressed entry does not exist; when the entry exists but
holds a node of a different type than requested, the getter also returns
absent; in particular the integer getter for a key present as a string
returns absent. -/
theorem config_getters_absent (table : ConfigTable) (array : ConfigArray)
    (key : String) (index : Nat) :
    (config_lookup table key = none →
      config_string_in table key = none ∧ config_cstring_in table key = none ∧
      config_int_in table key = none ∧ config_bool_in table key = none ∧
      config_float_in table key = none ∧ config_array_in table key = none ∧
      config_table_in table key = none) ∧
    (∀ s, config_lookup table key = some (ConfigValue.string s) →
      config_int_in table key = none ∧ config_bool_in table key = none ∧
      config_float_in table key = none ∧ config_array_in table key = none ∧
      config_table_in table key = none) ∧
    (∀ v, config_lookup table key = some v →
      ((∀ x, v ≠ ConfigValue.string x) → config_string_in table key = none ∧
        config_cstring_in table key = none) ∧
      ((∀ x, v ≠ ConfigValue.int x) → config_int_in table key = none) ∧
      ((∀ x, v ≠ ConfigValue.bool x) → config_bool_in table key = none) ∧
      ((∀ x, v ≠ ConfigValue.float x) → config_float_in table key = none) ∧
      ((∀ x, v ≠ ConfigValue.array x) → config_array_in table key = none) ∧
      ((∀ x, v ≠ ConfigValue.table x) → config_table_in table key = none)) ∧
    (config_at array index = none →
      config_string_at array index = none ∧ config_cstring_at array index = none ∧
      config_int_at array index = none ∧ config_bool_at array index = none ∧
      config_float_at array index = none ∧ config_array_at array index = none ∧
      config_table_at array index = none) ∧
    (∀ v, config_at array index = some v →
      ((∀ x, v ≠ ConfigValue.string x) → config_string_at array index = none ∧
        config_cstring_at array index = none) ∧
      ((∀ x, v ≠ ConfigValue.int x) → config_int_at array index = none) ∧
      ((∀ x, v ≠ ConfigValue.bool x) → config_bool_at array index = none) ∧
      ((∀ x, v ≠ ConfigValue.float x) → config_float_at array index = none) ∧
      ((∀ x, v ≠ ConfigValue.array x) → config_array_at array index = none) ∧
      ((∀ x, v ≠ ConfigValue.table x) → config_table_at array index = none)) := by
  refine ⟨fun h => ?_, fun s h => ?_, fun v h => ?_, fun h => ?_, fun v h => ?_⟩
  · simp [config_string_in, config_cstring_in, config_int_in, config_bool_in,
      config_float_in, config_array_in, config_table_in, h]
  · simp [config_int_in, config_bool_in, config_float_in, config_array_in,
      config_table_in, h]
  · refine ⟨fun hx => ?_, fun hx => ?_, fun hx => ?_, fun hx => ?_, fun hx => ?_,
      fun hx => ?_⟩ <;>
      cases v <;>
      simp_all [config_string_in, config_cstring_in, config_int_in,
        config_bool_in, config_float_in, config_array_in, config_table_in]
  · simp [config_string_at, config_cstring_at, config_int_at, config_bool_at,
      config_float_at, config_array_at, config_table_at, h]
  · refine ⟨fun hx => ?_, fun hx => ?_, fun hx => ?_, fun hx => ?_, fun hx => ?_,
      fun hx => ?_⟩ <;>
      cases v <;>
      simp_all [config_string_at, config_cstring_at, config_int_at,
        config_bool_at, config_float_at, config_array_at, config_table_at]

/-- A config table holding foo as a string, used by the C6 witness. -/
def ctable0 : ConfigTable :=
  { entries := [("foo", ConfigValue.string "bar")] }

/-- A one-element config array holding a string, used by the C6 witness. -/
def carray0 : ConfigArray :=
  { items := [ConfigValue.string "bar"] }

/-- Witness for C6: on ctable0, every getter for the missing key baz is
absent, the integer getter for the string-valued key foo is absent, and the
index-addressed integer getter is absent both out of range and on a string
item. -/
theorem config_getters_absent_witness :
    config_int_in ctable0 "baz" = none ∧ config_string_in ctable0 "baz" = none ∧
    config_int_in ctable0 "foo" = none ∧ config_int_at carray0 1 = none ∧
    config_int_at carray0 0 = none :=
  ⟨((config_getters_absent ctable0 carray0 "baz" 1).1 rfl).2.2.1,
   ((config_getters_absent ctable0 carray0 "baz" 1).1 rfl).1,
   ((config_getters_absent ctable0 carray0 "foo" 1).2.1 "bar" rfl).1,
   ((config_getters_absent ctable0 carray0 "baz" 1).2.2.2.1 rfl).2.2.1,
   (((config_getters_absent ctable0 carray0 "baz" 0).2.2.2.2
       (ConfigValue.string "bar") rfl).2.1 (fun x h => by cases h))⟩

end Alumet
